import Mathlib

/-!
Shallow embedding of the synchronization engine of this repository
(src/airtable_api.py, src/sellsy_api.py, src/main.py).

Python values stored in a ledger record field are modelled by `FVal`
(strings, numbers, null).  Python truthiness, `str(...)` conversion,
`.strip()` and `.lower()` are modelled explicitly so that the tolerant
checks of the source (`not fields.get(f)`, `str(v).strip()`, ...) can be
transcribed faithfully.  Network interactions are modelled by lists of
responses that successive HTTP requests receive.
-/

/-- A value held in a ledger (Airtable) record field: the JSON payload can
carry strings, numbers or null.  -/
inductive FVal where
  | vStr (s : String)
  | vNum (n : Int)
  | vNull
deriving DecidableEq

/-- Python truthiness of a field value: empty string, zero and null are falsy. -/
def pyTruthy : FVal → Bool
  | FVal.vStr s => s ≠ ""
  | FVal.vNum n => n ≠ 0
  | FVal.vNull => false

/-- Python `str(...)` conversion of a field value.  `str(None)` is the
literal string `None`. -/
def pyStr : FVal → String
  | FVal.vStr s => s
  | FVal.vNum n => toString n
  | FVal.vNull => "None"

/-- Strip leading and trailing whitespace from a character list. -/
def stripChars (l : List Char) : List Char :=
  ((l.dropWhile Char.isWhitespace).reverse.dropWhile Char.isWhitespace).reverse

/-- Python `str.strip()` (whitespace on both ends). -/
def pyStrip (s : String) : String :=
  String.mk (stripChars s.data)

/-- Python `str.lower()` (ASCII case folding suffices for the literals used). -/
def pyLower (s : String) : String :=
  String.mk (s.data.map Char.toLower)

/-- The fields mapping of a ledger record (a Python dict with unique keys,
modelled as an association list; `List.lookup` returns the first match). -/
def RecordFields : Type := List (String × FVal)

instance : DecidableEq RecordFields := by
  unfold RecordFields
  infer_instance

/-- Dict lookup: `fields.get(k)`. -/
def lookupField (fields : RecordFields) (k : String) : Option FVal :=
  List.lookup k fields

/-- Dict lookup with default: `fields.get(k, d)`. -/
def getFieldD (fields : RecordFields) (k : String) (d : FVal) : FVal :=
  (lookupField fields k).getD d

/-- Membership test `k in fields`. -/
def hasField (fields : RecordFields) (k : String) : Bool :=
  (lookupField fields k).isSome

/-- One Airtable record: `{id, fields}`. -/
structure AirRecord where
  id : String
  fields : RecordFields
deriving DecidableEq

/-- Python truthiness of an optional string (None and the empty string are
falsy); used for pagination offsets and configuration values. -/
def truthyOpt : Option String → Bool
  | none => false
  | some s => s ≠ ""

/-- Python truthiness of the optional `limit` argument (None and 0 are falsy). -/
def truthyNatOpt : Option Nat → Bool
  | none => false
  | some k => k ≠ 0

/-- The outcome of one page request inside `AirtableAPI.get_records`
(src/airtable_api.py): a 200 response carrying records and an optional
pagination offset, a non-200 status, or a raised exception
(`requests.RequestException` or any other). -/
inductive PageResult where
  | ok (records : List AirRecord) (offset : Option String)
  | httpErr (status : Nat)
  | exc
deriving DecidableEq

/-- The pagination loop of `AirtableAPI.get_records` (src/airtable_api.py,
lines 36-89).  `pages` is the sequence of outcomes the successive HTTP
requests produce; a run that terminates consumes a prefix of it.  A non-200
status or an exception makes the whole call return the empty list; when a
limit is set (and nonzero) the accumulated records are truncated to it. -/
def getRecordsGo (limit : Option Nat) : List PageResult → List AirRecord → List AirRecord
  | [], acc => acc
  | PageResult.httpErr _ :: _, _ => []
  | PageResult.exc :: _, _ => []
  | PageResult.ok recs off :: rest, acc =>
    let acc2 := acc ++ recs
    if truthyNatOpt limit = true ∧ limit.getD 0 ≤ acc2.length then
      acc2.take (limit.getD 0)
    else if truthyOpt off = true then
      getRecordsGo limit rest acc2
    else
      acc2

/-- `AirtableAPI.get_records(filter_formula, limit)`: the filter only alters
the request parameters, not the control flow, so it is not modelled. -/
def get_records (limit : Option Nat) (pages : List PageResult) : List AirRecord :=
  getRecordsGo limit pages []

/-- Example record used in concrete evaluations. -/
def exRec1 : AirRecord := ⟨"rec1", [("Nom", FVal.vStr "Dupont")]⟩

/-- Example record used in concrete evaluations. -/
def exRec2 : AirRecord := ⟨"rec2", []⟩

/-- Example record used in concrete evaluations. -/
def exRec3 : AirRecord := ⟨"rec3", []⟩

example : get_records none [PageResult.ok [exRec1] (some "x"), PageResult.ok [exRec2] none] = [exRec1, exRec2] := by decide

example : get_records none [PageResult.ok [exRec1] (some "x"), PageResult.httpErr 500] = [] := by decide

example : get_records (some 2) [PageResult.ok [exRec1, exRec2, exRec3] none] = [exRec1, exRec2] := by decide

example : pyStrip "  a b " = "a b" := by decide

example : pyLower "NoNe" = "none" := by decide

example : pyStr (FVal.vNum 0) = "0" := by decide

/-- One outcome observed by one HTTP attempt inside `SellsyAPI.request_api`
(src/sellsy_api.py, lines 206-308): an HTTP response with a status code
(bodies of 2xx responses are assumed JSON-decodable, which the claims do
not exercise), a request timeout, a connection error
(`requests.RequestException`), or any other exception. -/
inductive SellsyResp where
  | http (status : Nat)
  | timeout
  | connErr
  | otherExc
deriving DecidableEq

/-- Statuses `request_api` treats as success: `[200, 201, 202, 204]`. -/
def successStatuses : List Nat := [200, 201, 202, 204]

/-- Statuses `request_api` treats as temporary: `[429, 500, 502, 503, 504]`. -/
def transientStatuses : List Nat := [429, 500, 502, 503, 504]

/-- `max_retries` in `SellsyAPI.request_api`. -/
def max_retries : Nat := 3

/-- Observable outcome of a `request_api` call: whether a response dict was
returned (`result = true`) or `None` (`result = false`), the number of HTTP
requests issued, the sleep durations in seconds in order, and the number of
calls to `refresh_access_token`. -/
structure RAOutcome where
  result : Bool
  attempts : Nat
  sleeps : List Nat
  refreshCalls : Nat
deriving DecidableEq

/-- The retry loop of `SellsyAPI.request_api` (src/sellsy_api.py,
lines 219-308), transcribed iteration by iteration.

* `acquireOk` — whether `get_access_token` succeeds when the loop finds the
  token expired at the top of an iteration;
* `refreshOk` — whether `refresh_access_token` succeeds when a 401 response
  triggers it;
* `responses` — the outcomes of the successive HTTP attempts;
* `retryCount`, `tokenExpired`, `attempts`, `sleeps`, `refreshes` — loop
  state.  A fresh token obtained during the call carries an expiry margin of
  about an hour, far beyond the worst-case 14 seconds of backoff, so after a
  successful acquire or refresh the token is never expired again within the
  same call. -/
def requestApiGo (acquireOk refreshOk : Bool) :
    List SellsyResp → Nat → Bool → Nat → List Nat → Nat → RAOutcome
  | responses, retryCount, tokenExpired, attempts, sleeps, refreshes =>
    if max_retries ≤ retryCount then ⟨false, attempts, sleeps, refreshes⟩
    else if tokenExpired && !acquireOk then ⟨false, attempts, sleeps, refreshes⟩
    else
      match responses with
      | [] => ⟨false, attempts, sleeps, refreshes⟩
      | r :: rest =>
        let att := attempts + 1
        match r with
        | SellsyResp.timeout =>
          let rc := retryCount + 1
          if rc < max_retries then
            requestApiGo acquireOk refreshOk rest rc false att (sleeps ++ [2 ^ rc]) refreshes
          else ⟨false, att, sleeps, refreshes⟩
        | SellsyResp.connErr => ⟨false, att, sleeps, refreshes⟩
        | SellsyResp.otherExc => ⟨false, att, sleeps, refreshes⟩
        | SellsyResp.http s =>
          if s ∈ successStatuses then ⟨true, att, sleeps, refreshes⟩
          else if s = 401 then
            if refreshOk then
              requestApiGo acquireOk refreshOk rest (retryCount + 1) false att sleeps (refreshes + 1)
            else ⟨false, att, sleeps, refreshes + 1⟩
          else if s ∈ transientStatuses then
            let rc := retryCount + 1
            requestApiGo acquireOk refreshOk rest rc false att (sleeps ++ [2 ^ rc]) refreshes
          else ⟨false, att, sleeps, refreshes⟩

/-- `SellsyAPI.request_api(method, endpoint, data, params)`: method, endpoint
and payload only shape the HTTP request, not the control flow; `tokenExpired`
is the expiry state of the access token when the call starts. -/
def request_api (acquireOk refreshOk tokenExpired : Bool)
    (responses : List SellsyResp) : RAOutcome :=
  requestApiGo acquireOk refreshOk responses 0 tokenExpired 0 [] 0

/-- A response that the retry policy classifies as temporary: a transient
HTTP status or a timeout. -/
def transientOrTimeout (r : SellsyResp) : Prop :=
  (∃ s, r = SellsyResp.http s ∧ s ∈ transientStatuses) ∨ r = SellsyResp.timeout

example : request_api true true false [SellsyResp.http 200] = ⟨true, 1, [], 0⟩ := by decide

example : request_api true true false [SellsyResp.http 503, SellsyResp.http 200] = ⟨true, 2, [2], 0⟩ := by decide

example : request_api true true false [SellsyResp.http 503, SellsyResp.http 503, SellsyResp.http 503] = ⟨false, 3, [2, 4, 8], 0⟩ := by decide

example : request_api true true false [SellsyResp.timeout, SellsyResp.timeout, SellsyResp.timeout] = ⟨false, 3, [2, 4], 0⟩ := by decide

example : request_api true true false [SellsyResp.http 401, SellsyResp.http 401, SellsyResp.http 401] = ⟨false, 3, [], 3⟩ := by decide

example : request_api true true false [SellsyResp.http 401, SellsyResp.http 200] = ⟨true, 2, [], 1⟩ := by decide

example : request_api true false false [SellsyResp.http 401, SellsyResp.http 200] = ⟨false, 1, [], 1⟩ := by decide

example : request_api true true false [SellsyResp.http 404] = ⟨false, 1, [], 0⟩ := by decide

example : request_api true true false [SellsyResp.connErr] = ⟨false, 1, [], 0⟩ := by decide

example : request_api false true true [SellsyResp.http 200] = ⟨false, 0, [], 0⟩ := by decide

/-- The ledger column holding the organization name:
`Nom de l entreprise` (with an apostrophe, written here as an escape). -/
def orgNameField : String := "Nom de l\x27entreprise"

/-- Required columns for the organization path
(src/main.py, lines 127-130). -/
def requiredFieldsOrg : List String :=
  [orgNameField, "Email", "Téléphone", "Adresse complète", "Code postal", "Ville"]

/-- Required columns for the individual path (src/main.py, lines 133-136). -/
def requiredFieldsInd : List String :=
  ["Nom", "Prenom", "Email", "Téléphone", "Adresse complète", "Code postal", "Ville"]

/-- The missing-or-empty test of the validation loop:
`field not in record_fields or not record_fields[field]`
(src/main.py, line 141). -/
def fieldMissing (record_fields : RecordFields) (f : String) : Bool :=
  match lookupField record_fields f with
  | none => true
  | some v => !pyTruthy v

/-- The required-field list for the kind the mapper detects on a row:
organization when the trimmed organization-name field is nonempty
(src/main.py, lines 123-136). -/
def detectedRequired (record_fields : RecordFields) : List String :=
  if pyStrip (pyStr (getFieldD record_fields orgNameField (FVal.vStr ""))) ≠ "" then
    requiredFieldsOrg
  else
    requiredFieldsInd

/-- Diagnostic attached to a rejected row: the list of missing or empty
required columns logged at src/main.py line 145, or the invalid email
logged at line 165.  The Python function itself returns `None` in both
cases; the diagnostic lives in the warning log. -/
inductive Rejection where
  | missingFields (l : List String)
  | invalidEmail (e : String)
deriving DecidableEq

/-- The `third` sub-dict of the payload built by `sanitize_client_data`. -/
structure ThirdData where
  name : String
  email : String
  tel : String
  type : String
  siret : Option String
deriving DecidableEq

/-- The `contact` sub-dict of the payload built by `sanitize_client_data`. -/
structure ContactData where
  name : String
  firstname : String
  email : String
  tel : String
  position : String
deriving DecidableEq

/-- The `address` sub-dict of the payload built by `sanitize_client_data`. -/
structure AddressData where
  name : String
  address_line_1 : String
  address_line_2 : String
  postal_code : String
  city : String
  country_code : String
  is_invoicing_address : Bool
  is_delivery_address : Bool
  is_main : Bool
deriving DecidableEq

/-- The payload `sanitize_client_data` hands to the registry client. -/
structure ClientData where
  third : ThirdData
  contact : ContactData
  address : AddressData
deriving DecidableEq

/-- Result of `ClientSynchronizer.sanitize_client_data`: the validated
payload, or a rejection carrying the logged diagnostic. -/
inductive SanitizeResult where
  | rejected (r : Rejection)
  | accepted (d : ClientData)
deriving DecidableEq

/-- `ClientSynchronizer.sanitize_client_data(record_fields)`
(src/main.py, lines 112-241), transcribed clause by clause. -/
def sanitize_client_data (record_fields : RecordFields) : SanitizeResult :=
  let nom_entreprise := pyStrip (pyStr (getFieldD record_fields orgNameField (FVal.vStr "")))
  let required_fields := detectedRequired record_fields
  let missing_fields := required_fields.filter (fun f => fieldMissing record_fields f)
  if missing_fields ≠ [] then
    SanitizeResult.rejected (Rejection.missingFields missing_fields)
  else
    let email := pyStrip (pyStr (getFieldD record_fields "Email" (FVal.vStr "")))
    let telephone := pyStrip (pyStr (getFieldD record_fields "Téléphone" (FVal.vStr "")))
    let adresse := pyStrip (pyStr (getFieldD record_fields "Adresse complète" (FVal.vStr "")))
    let code_postal := pyStrip (pyStr (getFieldD record_fields "Code postal" (FVal.vStr "")))
    let ville := pyStrip (pyStr (getFieldD record_fields "Ville" (FVal.vStr "")))
    let pays_code0 := pyStrip (pyStr (getFieldD record_fields "Pays" (FVal.vStr "FR")))
    let pays_code := if pays_code0 = "" then "FR" else pays_code0
    let adresse_ligne_2 := pyStrip (pyStr (getFieldD record_fields "Adresse ligne 2" (FVal.vStr "")))
    if !(email.data.contains '@') then
      SanitizeResult.rejected (Rejection.invalidEmail email)
    else
      let address := AddressData.mk "Adresse principale" adresse adresse_ligne_2
        code_postal ville pays_code true true true
      if nom_entreprise ≠ "" then
        let siret := pyStrip (pyStr (getFieldD record_fields "SIRET" (FVal.vStr "")))
        SanitizeResult.accepted (ClientData.mk
          (ThirdData.mk nom_entreprise email telephone "corporation"
            (if siret ≠ "" then some siret else none))
          (ContactData.mk nom_entreprise "" email telephone "Entreprise")
          address)
      else
        let nom := pyStrip (pyStr (getFieldD record_fields "Nom" (FVal.vStr "")))
        let prenom := pyStrip (pyStr (getFieldD record_fields "Prenom" (FVal.vStr "")))
        SanitizeResult.accepted (ClientData.mk
          (ThirdData.mk (prenom ++ " " ++ nom) email telephone "person" none)
          (ContactData.mk nom prenom email telephone "Client")
          address)

/-- The candidate filter of `main` (src/main.py, lines 428-442): a row is
kept for synchronization when the detected back-reference field is absent,
its value is Python-falsy, or its trimmed string form is empty or the
word `none` in any case. -/
def isCandidate (sellsy_id_field : String) (fields : RecordFields) : Bool :=
  match lookupField fields sellsy_id_field with
  | none => true
  | some v =>
    if !pyTruthy v then true
    else
      let id_value := pyStrip (pyStr v)
      id_value == "" || pyLower id_value == "none"

/-- The candidate predicate exactly as the specification words it (claim C4):
selected iff the back-reference field is absent, its value is empty or
whitespace-only after string conversion and trimming, or its trimmed value
equals `none` case-insensitively.  Kept separate from `isCandidate`, which
transcribes the source, so the two can be compared. -/
def specCandidate (sellsy_id_field : String) (fields : RecordFields) : Bool :=
  match lookupField fields sellsy_id_field with
  | none => true
  | some v =>
    let t := pyStrip (pyStr v)
    t == "" || pyLower t == "none"

/-- The alias list of `identify_sellsy_id_field` (src/main.py, lines 382-385). -/
def possible_id_fields : List String :=
  ["ID_Sellsy", "Id_Sellsy", "id_sellsy", "ID Sellsy", "Id Sellsy",
   "id sellsy", "IDSellsy", "Sellsy ID", "sellsy_id", "sellsy-id"]

/-- The scan of the alias list against the sampled fields, in list order
(the `for field in possible_id_fields` loop, src/main.py, lines 395-401). -/
def findIdField : List String → RecordFields → String
  | [], _ => "ID_Sellsy"
  | f :: rest, fields =>
    if hasField fields f then f else findIdField rest fields

/-- `identify_sellsy_id_field(sample_records)` (src/main.py, lines 372-401). -/
def identify_sellsy_id_field (sample_records : List AirRecord) : String :=
  match sample_records with
  | [] => "ID_Sellsy"
  | r :: _ => findIdField possible_id_fields r.fields

example : identify_sellsy_id_field [] = "ID_Sellsy" := by decide

example : identify_sellsy_id_field [⟨"r", [("Sellsy ID", FVal.vStr "7")]⟩] = "Sellsy ID" := by decide

example : identify_sellsy_id_field [⟨"r", [("foo", FVal.vNull)]⟩] = "ID_Sellsy" := by decide

example : isCandidate "ID_Sellsy" [("ID_Sellsy", FVal.vNum 0)] = true := by decide

example : specCandidate "ID_Sellsy" [("ID_Sellsy", FVal.vNum 0)] = false := by decide

example : isCandidate "ID_Sellsy" [("ID_Sellsy", FVal.vStr " None ")] = true := by decide

example : isCandidate "ID_Sellsy" [("ID_Sellsy", FVal.vStr "1234")] = false := by decide

/-- The configuration surface read from the environment (class `Config`,
src/main.py, lines 51-61): `os.environ.get` yields `None` when a variable
is unset.  Only the five required items are modelled. -/
structure Config where
  airtableApiKey : Option String
  airtableBaseId : Option String
  airtableTableName : Option String
  sellsyClientId : Option String
  sellsyClientSecret : Option String
deriving DecidableEq

/-- The list of missing variable names built by `check_configuration`
(src/main.py, lines 347-358); a set but empty value also counts as missing
because Python tests `not Config.X`. -/
def missing_configs (c : Config) : List String :=
  (if !truthyOpt c.airtableApiKey then ["AIRTABLE_API_KEY"] else []) ++
  (if !truthyOpt c.airtableBaseId then ["AIRTABLE_BASE_ID"] else []) ++
  (if !truthyOpt c.airtableTableName then ["AIRTABLE_TABLE_NAME"] else []) ++
  (if !truthyOpt c.sellsyClientId then ["SELLSY_CLIENT_ID"] else []) ++
  (if !truthyOpt c.sellsyClientSecret then ["SELLSY_CLIENT_SECRET"] else [])

/-- `check_configuration()` (src/main.py, lines 340-370). -/
def check_configuration (c : Config) : Bool :=
  missing_configs c == []

/-- What a whole process run produces: whether a synchronization run was
performed, and the process exit status. -/
structure MainResult where
  syncRan : Bool
  exitCode : Nat
deriving DecidableEq

/-- The startup gate of `main()` (src/main.py, lines 403-412) together with
the `if __name__` entry (line 507): on incomplete configuration `main`
logs and plain-returns, so the interpreter exits with status 0; otherwise
the run continues with whatever the rest of `main` produces (`restOfMain`).
`main` never calls `sys.exit` and catches every exception, so the exit
status is 0 on every path; `restOfMain` abstracts the part of the run the
claims do not inspect. -/
def mainRun (c : Config) (restOfMain : MainResult) : MainResult :=
  if check_configuration c then restOfMain else ⟨false, 0⟩

/-- Result dict of `SellsyAPI.create_client` (src/sellsy_api.py,
lines 372-401): `{"status": "success", "client_id": id, "response": id}`
or `{"status": "error", ...}`. -/
inductive CCResult where
  | success (client_id : Option Nat)
  | error (msg : String)
deriving DecidableEq

/-- Log line emitted when the follow-up address call fails
(src/sellsy_api.py, line 383). -/
def warnAddressFailed : String := "warning: echec de creation adresse"

/-- Log line emitted when the follow-up contact call fails
(src/sellsy_api.py, line 391). -/
def warnContactFailed : String := "warning: echec de creation du contact"

/-- `SellsyAPI.create_client(client_data)` (src/sellsy_api.py,
lines 339-401), modelled over the outcomes of its network sub-calls:

* `entityResp` — result of the `POST /individuals` or `/companies` call
  made through `request_api`: `none` when it returned `None`, otherwise
  `some cid` where `cid` is the optional `id` field of the response dict;
* `hasAddress`, `hasContact` — whether `_prepare_client_data_for_v2` stored
  address and contact sub-data (contact only for organizations);
* `is_individual` — the detected client kind;
* `addressOk`, `contactOk` — outcomes of the follow-up `create_address`
  and `_create_client_contact` calls.

Returns the result dict together with the list of warning log lines.
Registry ids are positive, so truthiness of `client_id` is `Option.isSome`. -/
def create_client (entityResp : Option (Option Nat))
    (hasAddress hasContact is_individual addressOk contactOk : Bool) :
    CCResult × List String :=
  match entityResp with
  | none => (CCResult.error "Echec de creation du client", [])
  | some cid =>
    let addrWarn := if cid.isSome && hasAddress && !addressOk then [warnAddressFailed] else []
    let contactWarn :=
      if cid.isSome && hasContact && !is_individual && !contactOk then [warnContactFailed] else []
    (CCResult.success cid, addrWarn ++ contactWarn)

example :
    create_client (some (some 42)) true false true false true =
      (CCResult.success (some 42), [warnAddressFailed]) := by decide

example :
    create_client (some (some 42)) true false true true true =
      (CCResult.success (some 42), []) := by decide

/-- Scenario-A row (spec section 8): a complete individual row. -/
def exRowGood : RecordFields :=
  [("Nom", FVal.vStr "Dupont"), ("Prenom", FVal.vStr "Jean"),
   ("Email", FVal.vStr "j@x.com"), ("Téléphone", FVal.vStr "0102030405"),
   ("Adresse complète", FVal.vStr "1 rue A"), ("Code postal", FVal.vStr "75000"),
   ("Ville", FVal.vStr "Paris")]

/-- The payload `sanitize_client_data` builds for `exRowGood`. -/
def exPayloadGood : ClientData :=
  ClientData.mk
    (ThirdData.mk "Jean Dupont" "j@x.com" "0102030405" "person" none)
    (ContactData.mk "Dupont" "Jean" "j@x.com" "0102030405" "Client")
    (AddressData.mk "Adresse principale" "1 rue A" "" "75000" "Paris" "FR" true true true)

example : sanitize_client_data exRowGood = SanitizeResult.accepted exPayloadGood := by decide

/-- A row accepted by the mapper although its email carries two `@` signs
and its phone column is whitespace only. -/
def exRowLoose : RecordFields :=
  [("Nom", FVal.vStr "Dupont"), ("Prenom", FVal.vStr "Jean"),
   ("Email", FVal.vStr "a@@b.c"), ("Téléphone", FVal.vStr " "),
   ("Adresse complète", FVal.vStr "1 rue A"), ("Code postal", FVal.vStr "75000"),
   ("Ville", FVal.vStr "Paris")]

/-- The payload `sanitize_client_data` builds for `exRowLoose`. -/
def exPayloadLoose : ClientData :=
  ClientData.mk
    (ThirdData.mk "Jean Dupont" "a@@b.c" "" "person" none)
    (ContactData.mk "Dupont" "Jean" "a@@b.c" "" "Client")
    (AddressData.mk "Adresse principale" "1 rue A" "" "75000" "Paris" "FR" true true true)

example : sanitize_client_data exRowLoose = SanitizeResult.accepted exPayloadLoose := by decide

/-- A row with the last-name column absent and a present but `@`-less email. -/
def exRowMixed : RecordFields :=
  [("Prenom", FVal.vStr "Jean"),
   ("Email", FVal.vStr "bad"), ("Téléphone", FVal.vStr "0102030405"),
   ("Adresse complète", FVal.vStr "1 rue A"), ("Code postal", FVal.vStr "75000"),
   ("Ville", FVal.vStr "Paris")]

example :
    sanitize_client_data exRowMixed =
      SanitizeResult.rejected (Rejection.missingFields ["Nom"]) := by decide

/-- A row missing several required columns at once. -/
def exRowMissingMany : RecordFields :=
  [("Nom", FVal.vStr "Dupont"), ("Email", FVal.vStr ""), ("Ville", FVal.vStr "Paris")]

example :
    sanitize_client_data exRowMissingMany =
      SanitizeResult.rejected (Rejection.missingFields
        ["Prenom", "Email", "Téléphone", "Adresse complète", "Code postal"]) := by decide

/-! Theorems.  Helper lemmas come first, then one theorem per claim with its
counterexample and witness where required. -/

/-- Unfolding of one 200-page step of the pagination loop. -/
theorem getRecordsGo_ok_step (limit : Option Nat) (recs : List AirRecord)
    (off : Option String) (rest : List PageResult) (acc : List AirRecord) :
    getRecordsGo limit (PageResult.ok recs off :: rest) acc =
      if truthyNatOpt limit = true ∧ limit.getD 0 ≤ (acc ++ recs).length then
        (acc ++ recs).take (limit.getD 0)
      else if truthyOpt off = true then
        getRecordsGo limit rest (acc ++ recs)
      else
        acc ++ recs := rfl

/-- Reading with no limit, every page that answers 200 with a truthy offset
just accumulates and continues; an error response then wipes the
accumulator: the loop returns the empty list. -/
theorem getRecordsGo_error_after_ok (okPages : List PageResult) (bad : PageResult)
    (rest : List PageResult) (acc : List AirRecord)
    (hok : ∀ p ∈ okPages, ∃ recs o, p = PageResult.ok recs (some o) ∧ o ≠ "")
    (hbad : (∃ s, bad = PageResult.httpErr s) ∨ bad = PageResult.exc) :
    getRecordsGo none (okPages ++ bad :: rest) acc = [] := by
  induction okPages generalizing acc with
  | nil =>
    rcases hbad with ⟨s, rfl⟩ | rfl <;> simp [getRecordsGo]
  | cons p ps ih =>
    obtain ⟨recs, o, rfl, ho⟩ := hok p (by simp)
    rw [List.cons_append, getRecordsGo_ok_step]
    rw [if_neg (by simp [truthyNatOpt])]
    rw [if_pos (by simp [truthyOpt, ho])]
    exact ih _ (fun q hq => hok q (List.mem_cons_of_mem _ hq))

/-- Claim C1 (amended): when a page request of a no-limit `get_records` run
fails in transit or returns a non-200 status after earlier pages were
fetched, the call returns the empty list — the rows accumulated from the
earlier pages are discarded, not returned. -/
theorem C1_read_error_returns_empty (okPages : List PageResult) (bad : PageResult)
    (rest : List PageResult)
    (hok : ∀ p ∈ okPages, ∃ recs o, p = PageResult.ok recs (some o) ∧ o ≠ "")
    (hbad : (∃ s, bad = PageResult.httpErr s) ∨ bad = PageResult.exc) :
    get_records none (okPages ++ bad :: rest) = [] :=
  getRecordsGo_error_after_ok okPages bad rest [] hok hbad

/-- Claim C1 (counterexample): after one successful page holding one record,
a 500 answer makes `get_records` return the empty list and not the
accumulated rows `[exRec1]`, contrary to the claim. -/
theorem C1_counterexample :
    get_records none [PageResult.ok [exRec1] (some "cur"), PageResult.httpErr 500] = [] ∧
    get_records none [PageResult.ok [exRec1] (some "cur"), PageResult.httpErr 500] ≠ [exRec1] := by
  decide

/-- Claim C1 (witness): the amended theorem applied to a concrete run of one
good page followed by a 502 answer. -/
theorem C1_read_error_returns_empty_witness :
    (∀ p ∈ [PageResult.ok [exRec2] (some "cur2")],
      ∃ recs o, p = PageResult.ok recs (some o) ∧ o ≠ "") ∧
    ((∃ s, PageResult.httpErr 502 = PageResult.httpErr s) ∨
      PageResult.httpErr 502 = PageResult.exc) ∧
    get_records none ([PageResult.ok [exRec2] (some "cur2")] ++ PageResult.httpErr 502 :: []) = [] :=
  ⟨fun p hp => by
      simp only [List.mem_singleton] at hp
      subst hp
      exact ⟨[exRec2], "cur2", rfl, by decide⟩,
   Or.inl ⟨502, rfl⟩,
   C1_read_error_returns_empty [PageResult.ok [exRec2] (some "cur2")] (PageResult.httpErr 502) []
     (fun p hp => by
        simp only [List.mem_singleton] at hp
        subst hp
        exact ⟨[exRec2], "cur2", rfl, by decide⟩)
     (Or.inl ⟨502, rfl⟩)⟩

/-- With a positive limit, the accumulator of the pagination loop never
exceeds the limit. -/
theorem getRecordsGo_length_le (l : Nat) (hl : 0 < l) (pages : List PageResult)
    (acc : List AirRecord) (hacc : acc.length < l) :
    (getRecordsGo (some l) pages acc).length ≤ l := by
  induction pages generalizing acc with
  | nil => simpa [getRecordsGo] using Nat.le_of_lt hacc
  | cons p rest ih =>
    match p with
    | PageResult.httpErr s => simp [getRecordsGo]
    | PageResult.exc => simp [getRecordsGo]
    | PageResult.ok recs off =>
      rw [getRecordsGo_ok_step]
      by_cases hfull : l ≤ (acc ++ recs).length
      · rw [if_pos ⟨by simp [truthyNatOpt, Nat.pos_iff_ne_zero.mp hl], hfull⟩]
        simp
      · have hlt : (acc ++ recs).length < l := Nat.lt_of_not_le hfull
        rw [if_neg (fun hc => hfull hc.2)]
        by_cases hoff : truthyOpt off = true
        · rw [if_pos hoff]
          exact ih _ hlt
        · rw [if_neg hoff]
          exact Nat.le_of_lt hlt

/-- Claim C10: with a positive limit, `get_records` returns at most `limit`
records, and as soon as a page makes the accumulated records reach or
exceed the limit the loop stops and returns exactly the first `limit`
accumulated records. -/
theorem C10_limit_truncates (limit : Nat) (pages : List PageResult) (h : 0 < limit) :
    (get_records (some limit) pages).length ≤ limit ∧
    ∀ recs off rest acc, limit ≤ acc.length + recs.length →
      getRecordsGo (some limit) (PageResult.ok recs off :: rest) acc =
        (acc ++ recs).take limit := by
  constructor
  · exact getRecordsGo_length_le limit h pages [] (by simpa using h)
  · intro recs off rest acc hge
    have hfull : limit ≤ (acc ++ recs).length := by simpa using hge
    rw [getRecordsGo_ok_step]
    rw [if_pos ⟨by simp [truthyNatOpt, Nat.pos_iff_ne_zero.mp h], hfull⟩]
    rfl

/-- Claim C10 (witness): the theorem applied at limit 2 to a single page of
three records. -/
theorem C10_limit_truncates_witness :
    0 < 2 ∧
    (get_records (some 2) [PageResult.ok [exRec1, exRec2, exRec3] none]).length ≤ 2 :=
  ⟨by decide,
   (C10_limit_truncates 2 [PageResult.ok [exRec1, exRec2, exRec3] none] (by decide)).1⟩

/-- The alias scan is exactly a first-match search over the alias list. -/
theorem findIdField_eq_find (l : List String) (fields : RecordFields) :
    findIdField l fields = (l.find? (fun a => hasField fields a)).getD "ID_Sellsy" := by
  induction l with
  | nil => simp [findIdField]
  | cons f rest ih =>
    by_cases h : hasField fields f
    · simp [findIdField, h, List.find?_cons_of_pos]
    · simp only [findIdField, h, if_false]
      rw [List.find?_cons_of_neg _ (by simpa using h)]
      exact ih

/-- Claim C9: `identify_sellsy_id_field` samples the first record and
returns the first alias of `possible_id_fields`, in list order, present
among its field names; with no sample record or no matching alias it
returns the literal `ID_Sellsy`. -/
theorem C9_identify_first_alias (sample_records : List AirRecord) :
    identify_sellsy_id_field sample_records =
      match sample_records.head? with
      | none => "ID_Sellsy"
      | some r => (possible_id_fields.find? (fun a => hasField r.fields a)).getD "ID_Sellsy" := by
  cases sample_records with
  | nil => rfl
  | cons r rest =>
    simpa [identify_sellsy_id_field] using findIdField_eq_find possible_id_fields r.fields

/-- Claim C4 (counterexample): a row whose back-reference field holds the
number 0 is selected by the filter of `main`, although its trimmed string
form is the nonempty, non-`none` string `0`; so selection is not equivalent
to the absent / empty-after-trimming / `none` condition of the claim. -/
theorem C4_counterexample :
    isCandidate "ID_Sellsy" [("ID_Sellsy", FVal.vNum 0)] = true ∧
    specCandidate "ID_Sellsy" [("ID_Sellsy", FVal.vNum 0)] = false := by
  decide

/-- Claim C4 (amended): a row is selected for synchronization iff the
detected back-reference field is absent, its value is Python-falsy (empty
string, zero or null), its trimmed string form is empty, or its trimmed
string form equals `none` case-insensitively. -/
theorem C4_candidate_filter (sellsy_id_field : String) (fields : RecordFields) :
    isCandidate sellsy_id_field fields = true ↔
      (lookupField fields sellsy_id_field = none ∨
        ∃ v, lookupField fields sellsy_id_field = some v ∧
          (pyTruthy v = false ∨ pyStrip (pyStr v) = "" ∨
            pyLower (pyStrip (pyStr v)) = "none")) := by
  cases h : lookupField fields sellsy_id_field with
  | none => simp [isCandidate, h]
  | some v =>
    by_cases ht : pyTruthy v
    · simp [isCandidate, h, ht]
    · simp [isCandidate, h, ht]

/-- Configuration with the ledger API key unset; all other items present. -/
def badConfig : Config := ⟨none, some "base", some "table", some "cid", some "sec"⟩

/-- Claim C5 (counterexample): with the ledger API key missing, the process
performs no synchronization run but exits with status 0, not a non-zero
status: `main` logs and plain-returns, and the interpreter exits cleanly. -/
theorem C5_counterexample :
    (mainRun badConfig ⟨true, 0⟩).syncRan = false ∧
    (mainRun badConfig ⟨true, 0⟩).exitCode = 0 := by
  decide

/-- Claim C5 (amended): if any of the five required configuration items is
missing or empty, the process performs no synchronization run and exits
with status 0 (a normal return after logging the error). -/
theorem C5_missing_config_no_run (c : Config) (restOfMain : MainResult)
    (h : truthyOpt c.airtableApiKey = false ∨ truthyOpt c.airtableBaseId = false ∨
      truthyOpt c.airtableTableName = false ∨ truthyOpt c.sellsyClientId = false ∨
      truthyOpt c.sellsyClientSecret = false) :
    mainRun c restOfMain = ⟨false, 0⟩ := by
  have hc : check_configuration c = false := by
    have hne : missing_configs c ≠ [] := by
      rcases h with h | h | h | h | h <;> simp [missing_configs, h]
    simp [check_configuration, hne]
  simp [mainRun, hc]

/-- Claim C5 (witness): the amended theorem applied to a configuration
missing its ledger API key. -/
theorem C5_missing_config_no_run_witness :
    (truthyOpt badConfig.airtableApiKey = false ∨
      truthyOpt badConfig.airtableBaseId = false ∨
      truthyOpt badConfig.airtableTableName = false ∨
      truthyOpt badConfig.sellsyClientId = false ∨
      truthyOpt badConfig.sellsyClientSecret = false) ∧
    mainRun badConfig ⟨true, 7⟩ = ⟨false, 0⟩ :=
  ⟨by decide, C5_missing_config_no_run badConfig ⟨true, 7⟩ (by decide)⟩

/-- Claim C8 (counterexample): an entity creation whose follow-up address
call fails returns exactly the same result dict as a run where every
sub-call succeeds; the partial failure is distinguishable from total
failure but not from full success, contrary to the claim. -/
theorem C8_counterexample :
    (create_client (some (some 42)) true true false false false).1 =
      (create_client (some (some 42)) true true false true true).1 ∧
    (create_client (some (some 42)) true true false false false).1 ≠
      (create_client none true true false false false).1 := by
  decide

/-- Claim C8 (amended): when the entity is created but the follow-up address
sub-call fails, `create_client` returns the same success result as when all
sub-calls succeed — the partial failure is not reflected in the returned
value; it differs from the total-failure result, and the failure is
surfaced only as a warning log line absent from the full-success run. -/
theorem C8_partial_failure_result (cid : Nat) (hasContact is_individual contactOk : Bool) :
    (create_client (some (some cid)) true hasContact is_individual false contactOk).1 =
      (create_client (some (some cid)) true hasContact is_individual true contactOk).1 ∧
    (create_client (some (some cid)) true hasContact is_individual false contactOk).1 ≠
      (create_client none true hasContact is_individual false contactOk).1 ∧
    warnAddressFailed ∈ (create_client (some (some cid)) true hasContact is_individual false contactOk).2 ∧
    warnAddressFailed ∉ (create_client (some (some cid)) true hasContact is_individual true contactOk).2 := by
  refine ⟨rfl, by simp [create_client], ?_, ?_⟩ <;>
    cases hasContact <;> cases is_individual <;> cases contactOk <;>
      simp [create_client, warnAddressFailed, warnContactFailed]

/-- Unfolding of one loop iteration of `request_api` on an HTTP response. -/
theorem requestApiGo_http_step (a rOk : Bool) (s : Nat) (rest : List SellsyResp)
    (rc : Nat) (tokExp : Bool) (att : Nat) (sl : List Nat) (refr : Nat) :
    requestApiGo a rOk (SellsyResp.http s :: rest) rc tokExp att sl refr =
      if max_retries ≤ rc then ⟨false, att, sl, refr⟩
      else if tokExp && !a then ⟨false, att, sl, refr⟩
      else if s ∈ successStatuses then ⟨true, att + 1, sl, refr⟩
      else if s = 401 then
        if rOk then requestApiGo a rOk rest (rc + 1) false (att + 1) sl (refr + 1)
        else ⟨false, att + 1, sl, refr + 1⟩
      else if s ∈ transientStatuses then
        requestApiGo a rOk rest (rc + 1) false (att + 1) (sl ++ [2 ^ (rc + 1)]) refr
      else ⟨false, att + 1, sl, refr⟩ := rfl

/-- Unfolding of one loop iteration of `request_api` on a timeout. -/
theorem requestApiGo_timeout_step (a rOk : Bool) (rest : List SellsyResp)
    (rc : Nat) (tokExp : Bool) (att : Nat) (sl : List Nat) (refr : Nat) :
    requestApiGo a rOk (SellsyResp.timeout :: rest) rc tokExp att sl refr =
      if max_retries ≤ rc then ⟨false, att, sl, refr⟩
      else if tokExp && !a then ⟨false, att, sl, refr⟩
      else if rc + 1 < max_retries then
        requestApiGo a rOk rest (rc + 1) false (att + 1) (sl ++ [2 ^ (rc + 1)]) refr
      else ⟨false, att + 1, sl, refr⟩ := rfl

/-- Unfolding of the loop once the response sequence of the model is empty. -/
theorem requestApiGo_nil_step (a rOk : Bool) (rc : Nat) (tokExp : Bool)
    (att : Nat) (sl : List Nat) (refr : Nat) :
    requestApiGo a rOk [] rc tokExp att sl refr =
      if max_retries ≤ rc then ⟨false, att, sl, refr⟩
      else if tokExp && !a then ⟨false, att, sl, refr⟩
      else ⟨false, att, sl, refr⟩ := rfl

/-- Unfolding of one loop iteration of `request_api` on a connection error. -/
theorem requestApiGo_connErr_step (a rOk : Bool) (rest : List SellsyResp)
    (rc : Nat) (tokExp : Bool) (att : Nat) (sl : List Nat) (refr : Nat) :
    requestApiGo a rOk (SellsyResp.connErr :: rest) rc tokExp att sl refr =
      if max_retries ≤ rc then ⟨false, att, sl, refr⟩
      else if tokExp && !a then ⟨false, att, sl, refr⟩
      else ⟨false, att + 1, sl, refr⟩ := rfl

/-- Unfolding of one loop iteration of `request_api` on an unexpected
exception. -/
theorem requestApiGo_otherExc_step (a rOk : Bool) (rest : List SellsyResp)
    (rc : Nat) (tokExp : Bool) (att : Nat) (sl : List Nat) (refr : Nat) :
    requestApiGo a rOk (SellsyResp.otherExc :: rest) rc tokExp att sl refr =
      if max_retries ≤ rc then ⟨false, att, sl, refr⟩
      else if tokExp && !a then ⟨false, att, sl, refr⟩
      else ⟨false, att + 1, sl, refr⟩ := rfl

/-- Once the retry counter reaches the bound, the loop exits at once. -/
theorem requestApiGo_stop (a rOk : Bool) (responses : List SellsyResp)
    (rc : Nat) (tokExp : Bool) (att : Nat) (sl : List Nat) (refr : Nat)
    (h : max_retries ≤ rc) :
    requestApiGo a rOk responses rc tokExp att sl refr = ⟨false, att, sl, refr⟩ := by
  match responses with
  | [] => rw [requestApiGo_nil_step, if_pos h]
  | SellsyResp.http s :: rest => rw [requestApiGo_http_step, if_pos h]
  | SellsyResp.timeout :: rest => rw [requestApiGo_timeout_step, if_pos h]
  | SellsyResp.connErr :: rest => rw [requestApiGo_connErr_step, if_pos h]
  | SellsyResp.otherExc :: rest => rw [requestApiGo_otherExc_step, if_pos h]

/-- A temporary response is one of the five transient statuses or a timeout. -/
theorem transientOrTimeout_cases (r : SellsyResp) (hr : transientOrTimeout r) :
    r = SellsyResp.http 429 ∨ r = SellsyResp.http 500 ∨ r = SellsyResp.http 502 ∨
      r = SellsyResp.http 503 ∨ r = SellsyResp.http 504 ∨ r = SellsyResp.timeout := by
  rcases hr with ⟨s, rfl, hs⟩ | rfl
  · simp only [transientStatuses, List.mem_cons, List.mem_singleton, List.not_mem_nil,
      or_false] at hs
    rcases hs with rfl | rfl | rfl | rfl | rfl <;> simp
  · simp

/-- Claim C2 (counterexample): against a server answering 401 on every
attempt, with every token refresh succeeding, `request_api` makes 3 HTTP
attempts and 3 refresh calls before giving up — the second 401 is not
terminal and triggers a further refresh and retry, contrary to the claim
(which implies 2 attempts and 1 refresh at this input). -/
theorem C2_counterexample :
    (request_api true true false
      [SellsyResp.http 401, SellsyResp.http 401, SellsyResp.http 401]).attempts = 3 ∧
    (request_api true true false
      [SellsyResp.http 401, SellsyResp.http 401, SellsyResp.http 401]).refreshCalls = 3 := by
  decide

/-- Claim C2 (amended): a 401 answer triggers one token refresh and one
retry of the original request, but a second 401 is not terminal: each 401
triggers a further refresh and retry until the shared 3-attempt bound is
reached, so a persistent 401 with succeeding refreshes yields 3 attempts
and 3 refresh calls before the terminal error, while a failed refresh ends
the call at once. -/
theorem C2_refresh_retry (rest1 rest2 rest3 : List SellsyResp) :
    request_api true true false
      (SellsyResp.http 401 :: SellsyResp.http 200 :: rest1) = ⟨true, 2, [], 1⟩ ∧
    request_api true true false
      (SellsyResp.http 401 :: SellsyResp.http 401 :: SellsyResp.http 401 :: rest2) =
      ⟨false, 3, [], 3⟩ ∧
    request_api true false false (SellsyResp.http 401 :: rest3) = ⟨false, 1, [], 1⟩ := by
  refine ⟨?_, ?_, ?_⟩ <;>
    simp +decide [request_api, requestApiGo_http_step, requestApiGo_stop,
      max_retries, successStatuses, transientStatuses]

/-- Claim C3: against a server whose every answer is a transient status
(429, 500, 502, 503, 504) or a timeout, `request_api` makes exactly 3 HTTP
attempts, sleeps 2 seconds after the first failed attempt and 4 seconds
after the second, and returns the error value `None`; the loop never
exceeds the bound.  (After the third failed attempt the transient branch
additionally sleeps 8 seconds before the loop guard exits, which the claim
does not mention and does not exclude.) -/
theorem C3_retry_bound (acquireOk refreshOk : Bool) (r1 r2 r3 : SellsyResp)
    (rest : List SellsyResp)
    (h1 : transientOrTimeout r1) (h2 : transientOrTimeout r2) (h3 : transientOrTimeout r3) :
    (request_api acquireOk refreshOk false (r1 :: r2 :: r3 :: rest)).result = false ∧
    (request_api acquireOk refreshOk false (r1 :: r2 :: r3 :: rest)).attempts = 3 ∧
    (request_api acquireOk refreshOk false (r1 :: r2 :: r3 :: rest)).sleeps.take 2 = [2, 4] := by
  rcases transientOrTimeout_cases r1 h1 with rfl | rfl | rfl | rfl | rfl | rfl <;>
    rcases transientOrTimeout_cases r2 h2 with rfl | rfl | rfl | rfl | rfl | rfl <;>
      rcases transientOrTimeout_cases r3 h3 with rfl | rfl | rfl | rfl | rfl | rfl <;>
        simp +decide [request_api, requestApiGo_http_step, requestApiGo_timeout_step,
          requestApiGo_stop, max_retries, successStatuses, transientStatuses]

/-- Claim C3 (witness): the theorem applied to a server answering 503 three
times. -/
theorem C3_retry_bound_witness :
    transientOrTimeout (SellsyResp.http 503) ∧
    ((request_api true true false
        [SellsyResp.http 503, SellsyResp.http 503, SellsyResp.http 503]).result = false ∧
      (request_api true true false
        [SellsyResp.http 503, SellsyResp.http 503, SellsyResp.http 503]).attempts = 3 ∧
      (request_api true true false
        [SellsyResp.http 503, SellsyResp.http 503, SellsyResp.http 503]).sleeps.take 2 = [2, 4]) :=
  ⟨Or.inl ⟨503, rfl, by decide⟩,
   C3_retry_bound true true (SellsyResp.http 503) (SellsyResp.http 503) (SellsyResp.http 503) []
     (Or.inl ⟨503, rfl, by decide⟩) (Or.inl ⟨503, rfl, by decide⟩)
     (Or.inl ⟨503, rfl, by decide⟩)⟩

/-- Claim C6 (counterexample): on a row whose last-name column is absent and
whose email column is present but lacks an `@`, the rejection enumerates
only the missing column `Nom` — the invalid required field `Email` is not
part of the enumeration, because the email check only runs after the
missing-field check has passed. -/
theorem C6_counterexample :
    sanitize_client_data exRowMixed =
      SanitizeResult.rejected (Rejection.missingFields ["Nom"]) ∧
    "Email" ∈ detectedRequired exRowMixed ∧
    (pyStrip (pyStr (getFieldD exRowMixed "Email" (FVal.vStr "")))).data.contains '@' = false ∧
    "Email" ∉ ["Nom"] := by
  decide

/-- Claim C6 (amended): for every row in which at least one field required
for its detected kind is missing or Python-empty, the mapper rejects the
row and the rejection enumerates exactly the missing or empty required
fields — every one of them, not only the first found; a present but
invalid email is not part of this enumeration (it is reported separately,
and only when no required field is missing). -/
theorem C6_rejection_enumerates (record_fields : RecordFields)
    (h : ∃ f ∈ detectedRequired record_fields, fieldMissing record_fields f = true) :
    ∃ l, sanitize_client_data record_fields =
        SanitizeResult.rejected (Rejection.missingFields l) ∧
      ∀ f ∈ detectedRequired record_fields, (fieldMissing record_fields f = true ↔ f ∈ l) := by
  obtain ⟨f0, hf0, hmiss0⟩ := h
  refine ⟨(detectedRequired record_fields).filter (fun f => fieldMissing record_fields f),
    ?_, ?_⟩
  · have hne :
        (detectedRequired record_fields).filter (fun f => fieldMissing record_fields f) ≠ [] := by
      intro hnil
      have := List.filter_eq_nil_iff.mp hnil f0 hf0
      simp [hmiss0] at this
    simp only [sanitize_client_data]
    rw [if_pos hne]
  · intro f hf
    constructor
    · intro hm
      exact List.mem_filter.mpr ⟨hf, hm⟩
    · intro hmem
      exact (List.mem_filter.mp hmem).2

/-- Claim C6 (witness): the amended theorem applied to a row missing
several required columns at once. -/
theorem C6_rejection_enumerates_witness :
    (∃ f ∈ detectedRequired exRowMissingMany, fieldMissing exRowMissingMany f = true) ∧
    (∃ l, sanitize_client_data exRowMissingMany =
        SanitizeResult.rejected (Rejection.missingFields l) ∧
      ∀ f ∈ detectedRequired exRowMissingMany,
        (fieldMissing exRowMissingMany f = true ↔ f ∈ l)) :=
  ⟨by decide, C6_rejection_enumerates exRowMissingMany (by decide)⟩

/-- Claim C7 (counterexample): the mapper accepts a row whose email carries
two `@` characters and whose phone column is whitespace only; the produced
payload has an email without exactly one `@` and an empty required phone
field, contrary to the claimed invariant. -/
theorem C7_counterexample :
    sanitize_client_data exRowLoose = SanitizeResult.accepted exPayloadLoose ∧
    exPayloadLoose.third.email.data.count '@' = 2 ∧
    exPayloadLoose.third.tel = "" := by
  decide

/-- Claim C7 (amended): for every row the mapper accepts, the email of the
produced payload contains at least one `@` (not necessarily exactly one),
and every field required by the detected kind is present and Python-truthy
in the raw row (its trimmed string form may nevertheless be empty, as for
a whitespace-only phone). -/
theorem C7_accepted_invariant (record_fields : RecordFields) (p : ClientData)
    (h : sanitize_client_data record_fields = SanitizeResult.accepted p) :
    p.third.email.data.contains '@' = true ∧
    ∀ f ∈ detectedRequired record_fields, fieldMissing record_fields f = false := by
  simp only [sanitize_client_data] at h
  by_cases hmiss :
      (detectedRequired record_fields).filter (fun f => fieldMissing record_fields f) ≠ []
  · rw [if_pos hmiss] at h
    exact absurd h (by simp)
  · rw [if_neg hmiss] at h
    have hnomiss : ∀ f ∈ detectedRequired record_fields,
        fieldMissing record_fields f = false := by
      intro f hf
      have hnil :
          (detectedRequired record_fields).filter (fun f => fieldMissing record_fields f) = [] := by
        by_contra hc
        exact hmiss hc
      have := List.filter_eq_nil_iff.mp hnil f hf
      simpa using this
    cases hat :
        (pyStrip (pyStr (getFieldD record_fields "Email" (FVal.vStr "")))).data.contains '@' with
    | false =>
      rw [if_pos (by rw [hat]; decide)] at h
      exact absurd h (by simp)
    | true =>
      rw [if_neg (by rw [hat]; decide)] at h
      refine ⟨?_, hnomiss⟩
      by_cases horg :
          pyStrip (pyStr (getFieldD record_fields orgNameField (FVal.vStr ""))) ≠ ""
      · rw [if_pos horg] at h
        obtain rfl : _ = p := (SanitizeResult.accepted.injEq _ _).mp h
        exact hat
      · rw [if_neg horg] at h
        obtain rfl : _ = p := (SanitizeResult.accepted.injEq _ _).mp h
        exact hat

/-- Claim C7 (witness): the amended theorem applied to the complete
individual row of scenario A. -/
theorem C7_accepted_invariant_witness :
    sanitize_client_data exRowGood = SanitizeResult.accepted exPayloadGood ∧
    (exPayloadGood.third.email.data.contains '@' = true ∧
      ∀ f ∈ detectedRequired exRowGood, fieldMissing exRowGood f = false) :=
  ⟨by decide, C7_accepted_invariant exRowGood exPayloadGood (by decide)⟩
